import Mathlib

/-!
# cptx: context-propagated transactions

A shallow embedding of `cptx.go`.  The package is a thin layer over three
external libraries (`context`, `database/sql` / `sqlx`, `logrus`).  Their
behaviour is not part of the package, so every call into them goes through a
`Driver` record of response functions, and every such call is appended to a
trace kept in the `World`.  The package's own control flow (the lookup in the
context, the nil test, the type assertion, the order of the calls, the values
handed back) is transcribed from the source.
-/

namespace Cptx

/-! ## Go values -/

/-- Identity of a `*sqlx.Tx` that is not nil. -/
abbrev TxId := Nat

/-- The Go `error` interface, as far as the package looks at it: a non-nil
error value with its message.  A nil error is `none : Option GoError`. -/
structure GoError where
  msg : String
  deriving DecidableEq, Repr

/-- The `fmt.Errorf` call of the package: a format string with no verbs. -/
def fmtErrorf (format : String) : GoError := ⟨format⟩

/-- A value held in an `interface{}`: its dynamic type and its payload.
`ptx` is the package's `type ptx *sqlx.Tx`, whose pointer may be nil;
`sqlxTx` is the same pointer with the library's own type `*sqlx.Tx`. -/
inductive GoValue where
  | nil
  | str (s : String)
  | int (n : Int)
  | ptr (addr : Nat)
  | ptxKey (s : String)
  | ptx (p : Option TxId)
  | sqlxTx (p : Option TxId)
  deriving DecidableEq, Repr

/-- The `map[string]interface{}` of named parameters. -/
abbrev Params := List (String × GoValue)

/-- A `sql.Result`. -/
structure SqlResult where
  lastInsertId : Int
  rowsAffected : Int
  deriving DecidableEq, Repr

/-- A `*sql.Row`, as handed back by `QueryRowContext`. -/
structure Row where
  id : Nat
  deriving DecidableEq, Repr

/-- A `*sqlx.DB` that is not nil: the pool and how it was opened. -/
structure DB where
  id : Nat
  driverName : String
  dataSourceName : String
  deriving DecidableEq, Repr

/-! ## The context carrier (package `context`) -/

/-- A `context.Context` value.  Contexts are immutable: `valueCtx` wraps its
parent with one key/value pair, `cancelCtx` stands for the derivations that
bind no value (`WithCancel`, `WithDeadline`, `WithTimeout`). -/
inductive Context where
  | background
  | valueCtx (parent : Context) (key : GoValue) (val : GoValue)
  | cancelCtx (parent : Context)
  deriving DecidableEq, Repr

/-- The method `ctx.Value(key)`: the value of the nearest enclosing binding of
`key`, the nil interface when there is none. -/
def Context.Value : Context → GoValue → GoValue
  | .background, _ => GoValue.nil
  | .valueCtx parent k v, key => if k = key then v else parent.Value key
  | .cancelCtx parent, key => parent.Value key

/-- How a call ends: it returns, it panics, or the process exits. -/
inductive Outcome (α : Type) where
  | ret (a : α)
  | panicked (msg : String)
  | exited (code : Nat)
  deriving DecidableEq, Repr

/-- The function `context.WithValue(parent, key, val)`; it panics on a nil key. -/
def WithValue (parent : Context) (key val : GoValue) : Outcome Context :=
  if key = GoValue.nil then Outcome.panicked "nil key"
  else Outcome.ret (Context.valueCtx parent key val)

/-! ## The outside world -/

/-- One call into an external library. -/
inductive Event where
  | named (query : String) (params : Params)
  | rebind (db : DB) (query : String)
  | dbExec (db : DB) (ctx : Context) (query : String) (args : List GoValue)
  | txExec (tx : TxId) (ctx : Context) (query : String) (args : List GoValue)
  | dbQueryRow (db : DB) (ctx : Context) (query : String) (args : List GoValue)
  | txQueryRow (tx : TxId) (ctx : Context) (query : String) (args : List GoValue)
  | scan (row : Row) (dest : List GoValue)
  | beginx (db : DB)
  | commit (tx : TxId)
  | rollback (tx : TxId)
  | sqlxOpen (driverName : String) (dataSourceName : String)
  | ping (db : DB)
  | logInfo (fields : List (String × String)) (msg : String)
  | logFatal (fields : List (String × String)) (err : GoError)
  deriving DecidableEq, Repr

/-- The event is a statement sent to a pool (not to a transaction). -/
def Event.isPoolStmt : Event → Bool
  | .dbExec _ _ _ _ => true
  | .dbQueryRow _ _ _ _ => true
  | _ => false

/-- The event is a statement sent to some transaction. -/
def Event.isTxStmt : Event → Bool
  | .txExec _ _ _ _ => true
  | .txQueryRow _ _ _ _ => true
  | _ => false

/-- The event opens a pool. -/
def Event.isOpen : Event → Bool
  | .sqlxOpen _ _ => true
  | _ => false

/-- The responses of the external libraries, over a driver state `σ`.
`Named` and `Rebind` are the query rewriter (`sqlx.Named`, `(*DB).Rebind`);
the others are the calls on pools, transactions and rows. -/
structure Driver (σ : Type) where
  Named : String → Params → String × List GoValue × Option GoError
  Rebind : DB → String → String
  dbExecContext : σ → DB → Context → String → List GoValue →
    (Option SqlResult × Option GoError) × σ
  txExecContext : σ → TxId → Context → String → List GoValue →
    (Option SqlResult × Option GoError) × σ
  dbQueryRowContext : σ → DB → Context → String → List GoValue → Row × σ
  txQueryRowContext : σ → TxId → Context → String → List GoValue → Row × σ
  Scan : σ → Row → List GoValue → Option GoError × σ
  Beginx : σ → DB → Except GoError TxId × σ
  Commit : σ → TxId → Option GoError × σ
  Rollback : σ → TxId → Option GoError × σ
  Open : σ → String → String → Except GoError DB × σ
  Ping : σ → DB → Option GoError × σ

/-- The state outside the package: the driver's state and the calls made. -/
structure World (σ : Type) where
  drv : σ
  trace : List Event

/-- Append one call to the trace. -/
def World.log {σ : Type} (w : World σ) (e : Event) : World σ :=
  { w with trace := w.trace ++ [e] }

/-- Replace the driver state. -/
def World.set {σ : Type} (w : World σ) (s : σ) : World σ :=
  { w with drv := s }

/-! ## The query executor -/

/-- The type `mainSQLX`: the executor over the primary pool. -/
structure mainSQLX where
  db : DB
  deriving DecidableEq, Repr

/-- The type assertion `iptx.(ptx)`; `none` is the run-time panic. -/
def assertPtx : GoValue → Option (Option TxId)
  | .ptx p => some p
  | _ => none

/-- The call `tx.Tx.ExecContext(ctx, query, args...)` after `tx := iptx.(ptx)`. -/
def execOnTx {σ : Type} (d : Driver σ) (w : World σ) (iptx : GoValue) (ctx : Context)
    (query : String) (args : List GoValue) :
    Outcome (Option SqlResult × Option GoError) × World σ :=
  match assertPtx iptx with
  | none => (Outcome.panicked "interface conversion", w)
  | some none => (Outcome.panicked "nil pointer dereference", w)
  | some (some tx) =>
    let r := d.txExecContext w.drv tx ctx query args
    (Outcome.ret r.1, (w.log (Event.txExec tx ctx query args)).set r.2)

/-- The call `tx.Tx.QueryRowContext(ctx, query, args...).Scan(scans...)` after
`tx := iptx.(ptx)`. -/
def queryRowOnTx {σ : Type} (d : Driver σ) (w : World σ) (iptx : GoValue) (ctx : Context)
    (query : String) (args : List GoValue) (scans : List GoValue) :
    Outcome (Option GoError) × World σ :=
  match assertPtx iptx with
  | none => (Outcome.panicked "interface conversion", w)
  | some none => (Outcome.panicked "nil pointer dereference", w)
  | some (some tx) =>
    let r := d.txQueryRowContext w.drv tx ctx query args
    let w1 := (w.log (Event.txQueryRow tx ctx query args)).set r.2
    let e := d.Scan w1.drv r.1 scans
    (Outcome.ret e.1, (w1.log (Event.scan r.1 scans)).set e.2)

/-- The method `(*mainSQLX).ExecuteMustTx`. -/
def mainSQLX.ExecuteMustTx {σ : Type} (d : Driver σ) (m : mainSQLX) (w : World σ)
    (ctx : Context) (query : String) (params : Params) :
    Outcome (Option SqlResult × Option GoError) × World σ :=
  let iptx := ctx.Value (GoValue.ptxKey "ptx")
  let exist := iptx != GoValue.nil
  if !exist then
    (Outcome.ret (none, some (fmtErrorf "Transaction Pointer is not found inside the context")), w)
  else
    let n := d.Named query params
    let w1 := w.log (Event.named query params)
    match n.2.2 with
    | some err => (Outcome.ret (none, some err), w1)
    | none =>
      let query := d.Rebind m.db n.1
      let w2 := w1.log (Event.rebind m.db n.1)
      execOnTx d w2 iptx ctx query n.2.1

/-- The method `(*mainSQLX).Execute`. -/
def mainSQLX.Execute {σ : Type} (d : Driver σ) (m : mainSQLX) (w : World σ)
    (ctx : Context) (query : String) (params : Params) :
    Outcome (Option SqlResult × Option GoError) × World σ :=
  let iptx := ctx.Value (GoValue.ptxKey "ptx")
  let exist := iptx != GoValue.nil
  let n := d.Named query params
  let w1 := w.log (Event.named query params)
  match n.2.2 with
  | some err => (Outcome.ret (none, some err), w1)
  | none =>
    let query := d.Rebind m.db n.1
    let w2 := w1.log (Event.rebind m.db n.1)
    if exist then
      execOnTx d w2 iptx ctx query n.2.1
    else
      let r := d.dbExecContext w2.drv m.db ctx query n.2.1
      (Outcome.ret r.1, (w2.log (Event.dbExec m.db ctx query n.2.1)).set r.2)

/-- The method `(*mainSQLX).QueryRowMustTx`. -/
def mainSQLX.QueryRowMustTx {σ : Type} (d : Driver σ) (m : mainSQLX) (w : World σ)
    (ctx : Context) (query : String) (params : Params) (scans : List GoValue) :
    Outcome (Option GoError) × World σ :=
  let iptx := ctx.Value (GoValue.ptxKey "ptx")
  let exist := iptx != GoValue.nil
  if !exist then
    (Outcome.ret (some (fmtErrorf "Transaction Pointer is not found inside the context")), w)
  else
    let n := d.Named query params
    let w1 := w.log (Event.named query params)
    match n.2.2 with
    | some err => (Outcome.ret (some err), w1)
    | none =>
      let query := d.Rebind m.db n.1
      let w2 := w1.log (Event.rebind m.db n.1)
      queryRowOnTx d w2 iptx ctx query n.2.1 scans

/-- The method `(*mainSQLX).QueryRow`. -/
def mainSQLX.QueryRow {σ : Type} (d : Driver σ) (m : mainSQLX) (w : World σ)
    (ctx : Context) (query : String) (params : Params) (scans : List GoValue) :
    Outcome (Option GoError) × World σ :=
  let iptx := ctx.Value (GoValue.ptxKey "ptx")
  let exist := iptx != GoValue.nil
  let n := d.Named query params
  let w1 := w.log (Event.named query params)
  match n.2.2 with
  | some err => (Outcome.ret (some err), w1)
  | none =>
    let query := d.Rebind m.db n.1
    let w2 := w1.log (Event.rebind m.db n.1)
    if exist then
      queryRowOnTx d w2 iptx ctx query n.2.1 scans
    else
      let r := d.dbQueryRowContext w2.drv m.db ctx query n.2.1
      let w3 := (w2.log (Event.dbQueryRow m.db ctx query n.2.1)).set r.2
      let e := d.Scan w3.drv r.1 scans
      (Outcome.ret e.1, (w3.log (Event.scan r.1 scans)).set e.2)

/-- The method `(*mainSQLX).DB`. -/
def mainSQLX.DB (m : mainSQLX) : DB := m.db

/-! ## The transaction controller -/

/-- The type `databaseHolder`.  `Mainx` is an opened pool in every holder the
package builds; `Replicax` is left nil in the holder returned as `Transaction`. -/
structure databaseHolder where
  Mainx : DB
  Replicax : Option DB
  deriving DecidableEq, Repr

/-- The method `(*databaseHolder).Main`. -/
def databaseHolder.Main (h : databaseHolder) : mainSQLX := { db := h.Mainx }

/-- The method `(*databaseHolder).Replica`. -/
def databaseHolder.Replica (h : databaseHolder) : Option DB := h.Replicax

/-- The type `uniqueHolder`: the transaction made by one `Begin`. -/
structure uniqueHolder where
  tx : TxId
  deriving DecidableEq, Repr

/-- The method `(*databaseHolder).Begin`.  The parameter `ctx *context.Context`
is passed as the context the reference holds before the call; the second
component of the result is the context it holds after the call.  A nil
reference, or a reference to a nil interface, is not a value of `Context`. -/
def databaseHolder.Begin {σ : Type} (d : Driver σ) (h : databaseHolder) (w : World σ)
    (ctx : Context) : Outcome (Option uniqueHolder × Option GoError) × Context × World σ :=
  let r := d.Beginx w.drv h.Mainx
  let w1 := (w.log (Event.beginx h.Mainx)).set r.2
  match r.1 with
  | Except.error err => (Outcome.ret (none, some err), ctx, w1)
  | Except.ok tx =>
    match WithValue ctx (GoValue.ptxKey "ptx") (GoValue.ptx (some tx)) with
    | Outcome.ret newCtx => (Outcome.ret (some { tx := tx }, none), newCtx, w1)
    | Outcome.panicked msg => (Outcome.panicked msg, ctx, w1)
    | Outcome.exited code => (Outcome.exited code, ctx, w1)

/-- The method `(*uniqueHolder).Commit`. -/
def uniqueHolder.Commit {σ : Type} (d : Driver σ) (uh : uniqueHolder) (w : World σ) :
    Option GoError × World σ :=
  let r := d.Commit w.drv uh.tx
  (r.1, (w.log (Event.commit uh.tx)).set r.2)

/-- The method `(*uniqueHolder).Rollback`. -/
def uniqueHolder.Rollback {σ : Type} (d : Driver σ) (uh : uniqueHolder) (w : World σ) :
    Option GoError × World σ :=
  let r := d.Rollback w.drv uh.tx
  (r.1, (w.log (Event.rollback uh.tx)).set r.2)

/-! ## The connection provider -/

/-- The type `connectionString`. -/
structure connectionString where
  main : String
  replica : String
  domain : String
  deriving DecidableEq, Repr

/-- The function `Initialize`. -/
def Initialize (main replica domain : String) : connectionString :=
  { main := main, replica := replica, domain := domain }

/-- The variable `stringType`. -/
def stringType : String := "type"

/-- The variable `stringConnection`. -/
def stringConnection : String := "connection"

/-- The variable `postgres`. -/
def postgres : String := "postgres"

/-- The call `logrus.WithFields(fields).Fatal(err)`: the entry is written and
the process exits with status 1, so the `panic(err)` after it is not reached. -/
def fatal {σ α : Type} (w : World σ) (fields : List (String × String)) (err : GoError) :
    Outcome α × World σ :=
  (Outcome.exited 1, w.log (Event.logFatal fields err))

/-- The method `(*connectionString).Open`.  The two results are the
`Database` and the `Transaction`. -/
def connectionString.Open {σ : Type} (d : Driver σ) (cs : connectionString) (w : World σ) :
    Outcome (databaseHolder × databaseHolder) × World σ :=
  let logFields := [("platform", postgres), ("domain", cs.domain)]
  let logMainFields := [(stringType, "main"), (stringConnection, cs.main)]
  let logReplicaFields := [(stringType, "replica"), (stringConnection, cs.replica)]
  let w1 := w.log (Event.logInfo logFields "Connecting to PostgreSQL DB")
  let w2 := w1.log (Event.logInfo logFields "Opening Connection to Main")
  let o1 := d.Open w2.drv postgres cs.main
  let w3 := (w2.log (Event.sqlxOpen postgres cs.main)).set o1.2
  match o1.1 with
  | Except.error err => fatal w3 logMainFields err
  | Except.ok dbMain =>
    let p1 := d.Ping w3.drv dbMain
    let w4 := (w3.log (Event.ping dbMain)).set p1.2
    match p1.1 with
    | some err => fatal w4 logMainFields err
    | none =>
      let w5 := w4.log (Event.logInfo logFields "Opening Connection to Replica")
      let o2 := d.Open w5.drv postgres cs.main
      let w6 := (w5.log (Event.sqlxOpen postgres cs.main)).set o2.2
      match o2.1 with
      | Except.error err => fatal w6 logReplicaFields err
      | Except.ok dbReplica =>
        let p2 := d.Ping w6.drv dbReplica
        let w7 := (w6.log (Event.ping dbReplica)).set p2.2
        match p2.1 with
        | some err => fatal w7 logReplicaFields err
        | none =>
          (Outcome.ret ({ Mainx := dbMain, Replicax := some dbReplica },
                        { Mainx := dbMain, Replicax := none }), w7)

/-! ## Vocabulary of the statements -/

/-- The calls made between the world `w` and the later world `w2`. -/
def newEvents {σ : Type} (w w2 : World σ) : List Event :=
  w2.trace.drop w.trace.length

/-- The query that is sent: the rewriter's positional query, rebound. -/
def sentQuery {σ : Type} (d : Driver σ) (m : mainSQLX) (query : String) (params : Params) :
    String :=
  d.Rebind m.db (d.Named query params).1

/-- The arguments that are sent: the rewriter's argument list. -/
def sentArgs {σ : Type} (d : Driver σ) (query : String) (params : Params) : List GoValue :=
  (d.Named query params).2.1

/-- The error of the `*MustTx` operations on a context without a transaction. -/
def missingTransaction : GoError :=
  { msg := "Transaction Pointer is not found inside the context" }

/-- One way of deriving a context from another: a `Begin` through a reference
that holds it (in any world), a binding of a key, or a derivation that binds
no value. -/
inductive Step (σ : Type) where
  | beginTx (h : databaseHolder) (w : World σ)
  | bind (key : GoValue) (val : GoValue)
  | derive

/-- The context after one step; `none` when the step is not a successful
`Begin`, or binds the transaction key, or panics. -/
def applyStep {σ : Type} (d : Driver σ) (ctx : Context) : Step σ → Option Context
  | Step.beginTx h w =>
    match h.Begin d w ctx with
    | (Outcome.ret (some _, none), newCtx, _) => some newCtx
    | _ => none
  | Step.bind key val =>
    if key = GoValue.ptxKey "ptx" then none
    else
      match WithValue ctx key val with
      | Outcome.ret newCtx => some newCtx
      | _ => none
  | Step.derive => some (Context.cancelCtx ctx)

/-- The context after a finite sequence of steps. -/
def applySteps {σ : Type} (d : Driver σ) (ctx : Context) : List (Step σ) → Option Context
  | [] => some ctx
  | s :: rest => (applyStep d ctx s).bind (fun c => applySteps d c rest)

/-- The outcome is a panic. -/
def Outcome.isPanic {α : Type} : Outcome α → Bool
  | Outcome.panicked _ => true
  | _ => false

/-! ## A concrete driver -/

/-- State of the concrete driver: the next fresh identity and the
transactions already terminated. -/
structure SimState where
  next : Nat
  done : List TxId
  deriving DecidableEq, Repr

/-- The error a terminated transaction answers with. -/
def errTxDone : GoError :=
  { msg := "sql: transaction has already been committed or rolled back" }

/-- A small driver: the rewriter rejects the empty query and otherwise keeps
the text and lists the parameter values; fresh identities are handed out in
order; a transaction is terminated by its first commit or rollback and
answers `errTxDone` from then on; an empty data source name cannot be opened. -/
def simDriver : Driver SimState where
  Named := fun q p =>
    if q = "" then ("", [], some { msg := "empty query" }) else (q, p.map Prod.snd, none)
  Rebind := fun _ q => q
  dbExecContext := fun s _ _ _ _ => ((some { lastInsertId := 0, rowsAffected := 1 }, none), s)
  txExecContext := fun s tx _ _ _ =>
    if tx ∈ s.done then ((none, some errTxDone), s)
    else ((some { lastInsertId := 0, rowsAffected := 1 }, none), s)
  dbQueryRowContext := fun s _ _ _ _ => ({ id := s.next }, { s with next := s.next + 1 })
  txQueryRowContext := fun s _ _ _ _ => ({ id := s.next }, { s with next := s.next + 1 })
  Scan := fun s _ _ => (none, s)
  Beginx := fun s _ => (Except.ok s.next, { s with next := s.next + 1 })
  Commit := fun s tx =>
    if tx ∈ s.done then (some errTxDone, s) else (none, { s with done := tx :: s.done })
  Rollback := fun s tx =>
    if tx ∈ s.done then (some errTxDone, s) else (none, { s with done := tx :: s.done })
  Open := fun s drv dsn =>
    if dsn = "" then (Except.error { msg := "missing data source name" }, s)
    else (Except.ok { id := s.next, driverName := drv, dataSourceName := dsn },
          { s with next := s.next + 1 })
  Ping := fun s _ => (none, s)

/-- A driver whose primary pool cannot start a transaction. -/
def downDriver : Driver SimState :=
  { simDriver with Beginx := fun s _ => (Except.error { msg := "connection refused" }, s) }

/-- The initial world of the concrete driver. -/
def simWorld : World SimState := { drv := { next := 0, done := [] }, trace := [] }

/-- A primary pool. -/
def simDB : DB := { id := 100, driverName := "postgres", dataSourceName := "main" }

/-- A context that carries transaction 7. -/
def boundCtx : Context :=
  Context.valueCtx Context.background (GoValue.ptxKey "ptx") (GoValue.ptx (some 7))

/-! ## Theorems -/

section Lemmas

variable {σ : Type}

/-- The lookup under the transaction key is nil or a non-nil `ptx`. -/
theorem applyStep_lookup (d : Driver σ) (c c2 : Context) (st : Step σ)
    (hc : c.Value (GoValue.ptxKey "ptx") = GoValue.nil
      ∨ ∃ T, c.Value (GoValue.ptxKey "ptx") = GoValue.ptx (some T))
    (hs : applyStep d c st = some c2) :
    c2.Value (GoValue.ptxKey "ptx") = GoValue.nil
      ∨ ∃ T, c2.Value (GoValue.ptxKey "ptx") = GoValue.ptx (some T) := by
  cases st with
  | beginTx h w =>
    simp only [applyStep, databaseHolder.Begin, WithValue, reduceCtorEq, if_false] at hs
    cases hx : (d.Beginx w.drv h.Mainx).1 with
    | error err => simp [hx] at hs
    | ok tx =>
      simp only [hx, Option.some.injEq] at hs
      subst hs
      exact Or.inr ⟨tx, by simp [Context.Value]⟩
  | bind key val =>
    simp only [applyStep, WithValue] at hs
    by_cases hk : key = GoValue.ptxKey "ptx"
    · simp [hk] at hs
    · by_cases hn : key = GoValue.nil
      · simp [hk, hn] at hs
      · simp only [hk, hn, if_false, Option.some.injEq] at hs
        subst hs
        simpa [Context.Value, hk] using hc
  | derive =>
    simp only [applyStep, Option.some.injEq] at hs
    subst hs
    simpa [Context.Value] using hc

theorem applySteps_lookup (d : Driver σ) (steps : List (Step σ)) :
    ∀ (c c2 : Context),
      (c.Value (GoValue.ptxKey "ptx") = GoValue.nil
        ∨ ∃ T, c.Value (GoValue.ptxKey "ptx") = GoValue.ptx (some T)) →
      applySteps d c steps = some c2 →
      (c2.Value (GoValue.ptxKey "ptx") = GoValue.nil
        ∨ ∃ T, c2.Value (GoValue.ptxKey "ptx") = GoValue.ptx (some T)) := by
  induction steps with
  | nil =>
    intro c c2 hc hs
    simp only [applySteps, Option.some.injEq] at hs
    subst hs
    exact hc
  | cons st rest ih =>
    intro c c2 hc hs
    simp only [applySteps] at hs
    cases hx : applyStep d c st with
    | none => simp [hx] at hs
    | some c1 =>
      simp only [hx, Option.some_bind] at hs
      exact ih c1 c2 (applyStep_lookup d c c1 st hc hx) hs

/-- The model can panic: a value of another dynamic type under the transaction
key fails the type assertion, and a nil `ptx` fails the dereference. -/
theorem assertion_can_fail :
    ((mainSQLX.mk simDB).Execute simDriver simWorld
        (Context.valueCtx Context.background (GoValue.ptxKey "ptx") (GoValue.sqlxTx (some 7)))
        "INSERT" []).1 = Outcome.panicked "interface conversion"
      ∧ ((mainSQLX.mk simDB).QueryRowMustTx simDriver simWorld
        (Context.valueCtx Context.background (GoValue.ptxKey "ptx") (GoValue.ptx none))
        "SELECT" [] []).1 = Outcome.panicked "nil pointer dereference" := by
  decide

/-- Whatever the driver answers, every pool that `Open` opens is opened with
the driver name `postgres` and the main connection string. -/
theorem open_uses_main_string (d : Driver σ) (cs : connectionString) (w : World σ) :
    ∀ ev ∈ newEvents w (cs.Open d w).2, ev.isOpen = true →
      ev = Event.sqlxOpen postgres cs.main := by
  unfold connectionString.Open
  cases h1 : (d.Open w.drv postgres cs.main).1 with
  | error err =>
    simp [h1, fatal, World.log, World.set, newEvents, Event.isOpen]
  | ok dbMain =>
    cases h2 : (d.Ping (d.Open w.drv postgres cs.main).2 dbMain).1 with
    | some err =>
      simp [h1, h2, fatal, World.log, World.set, newEvents, Event.isOpen]
    | none =>
      cases h3 : (d.Open (d.Ping (d.Open w.drv postgres cs.main).2 dbMain).2
          postgres cs.main).1 with
      | error err =>
        simp [h1, h2, h3, fatal, World.log, World.set, newEvents, Event.isOpen]
      | ok dbReplica =>
        cases h4 : (d.Ping (d.Open (d.Ping (d.Open w.drv postgres cs.main).2 dbMain).2
            postgres cs.main).2 dbReplica).1 with
        | some err =>
          simp [h1, h2, h3, h4, fatal, World.log, World.set, newEvents, Event.isOpen]
        | none =>
          simp [h1, h2, h3, h4, World.log, World.set, newEvents, Event.isOpen]

end Lemmas

/-- C1. On a context with no value under the transaction key, whatever the
query and the parameters, `ExecuteMustTx` returns a nil result with the error
"Transaction Pointer is not found inside the context" and `QueryRowMustTx`
returns the same error; the world is left as it was, so the rewriter is not
called and no statement reaches the pool or a transaction. -/
theorem mustTx_without_transaction {σ : Type} (d : Driver σ) (m : mainSQLX) (w : World σ)
    (ctx : Context) (query : String) (params : Params) (scans : List GoValue)
    (h : ctx.Value (GoValue.ptxKey "ptx") = GoValue.nil) :
    m.ExecuteMustTx d w ctx query params
        = (Outcome.ret (none, some missingTransaction), w)
      ∧ m.QueryRowMustTx d w ctx query params scans
        = (Outcome.ret (some missingTransaction), w)
      ∧ missingTransaction.msg = "Transaction Pointer is not found inside the context"
      ∧ newEvents w (m.ExecuteMustTx d w ctx query params).2 = []
      ∧ newEvents w (m.QueryRowMustTx d w ctx query params scans).2 = [] := by
  simp [mainSQLX.ExecuteMustTx, mainSQLX.QueryRowMustTx, h, fmtErrorf, missingTransaction,
    newEvents]

/-- Witness of C1: the background context and a query the rewriter rejects. -/
theorem mustTx_without_transaction_witness :
    Context.background.Value (GoValue.ptxKey "ptx") = GoValue.nil
      ∧ (mainSQLX.mk simDB).ExecuteMustTx simDriver simWorld Context.background "" []
          = (Outcome.ret (none, some missingTransaction), simWorld) :=
  ⟨rfl, (mustTx_without_transaction simDriver (mainSQLX.mk simDB) simWorld
    Context.background "" [] [] rfl).1⟩

/-- C2. On a context that carries the transaction `T` under the transaction
key, with a query the rewriter accepts, each of the four operations returns
what `T` answers (the row forms: what the scan answers) to the rewritten,
rebound query with the rewriter's arguments; the calls it makes are the two
rewriter calls and that one statement on `T` (then the scan), none on the pool. -/
theorem operations_join_transaction {σ : Type} (d : Driver σ) (m : mainSQLX) (w : World σ)
    (ctx : Context) (T : TxId) (query : String) (params : Params) (scans : List GoValue)
    (hT : ctx.Value (GoValue.ptxKey "ptx") = GoValue.ptx (some T))
    (hn : (d.Named query params).2.2 = none) :
    (∀ op ∈ [m.ExecuteMustTx d w ctx query params, m.Execute d w ctx query params],
        op.1 = Outcome.ret
            (d.txExecContext w.drv T ctx (sentQuery d m query params) (sentArgs d query params)).1
        ∧ op.2.drv
            = (d.txExecContext w.drv T ctx (sentQuery d m query params) (sentArgs d query params)).2
        ∧ newEvents w op.2
            = [Event.named query params, Event.rebind m.db (d.Named query params).1,
               Event.txExec T ctx (sentQuery d m query params) (sentArgs d query params)]
        ∧ (newEvents w op.2).filter Event.isTxStmt
            = [Event.txExec T ctx (sentQuery d m query params) (sentArgs d query params)]
        ∧ (newEvents w op.2).filter Event.isPoolStmt = [])
      ∧ (∀ op ∈ [m.QueryRowMustTx d w ctx query params scans,
                 m.QueryRow d w ctx query params scans],
        op.1 = Outcome.ret
            (d.Scan
              (d.txQueryRowContext w.drv T ctx (sentQuery d m query params)
                (sentArgs d query params)).2
              (d.txQueryRowContext w.drv T ctx (sentQuery d m query params)
                (sentArgs d query params)).1 scans).1
        ∧ op.2.drv
            = (d.Scan
              (d.txQueryRowContext w.drv T ctx (sentQuery d m query params)
                (sentArgs d query params)).2
              (d.txQueryRowContext w.drv T ctx (sentQuery d m query params)
                (sentArgs d query params)).1 scans).2
        ∧ newEvents w op.2
            = [Event.named query params, Event.rebind m.db (d.Named query params).1,
               Event.txQueryRow T ctx (sentQuery d m query params) (sentArgs d query params),
               Event.scan
                 (d.txQueryRowContext w.drv T ctx (sentQuery d m query params)
                   (sentArgs d query params)).1 scans]
        ∧ (newEvents w op.2).filter Event.isTxStmt
            = [Event.txQueryRow T ctx (sentQuery d m query params) (sentArgs d query params)]
        ∧ (newEvents w op.2).filter Event.isPoolStmt = []) := by
  simp [mainSQLX.ExecuteMustTx, mainSQLX.Execute, mainSQLX.QueryRowMustTx, mainSQLX.QueryRow,
    hT, hn, execOnTx, queryRowOnTx, assertPtx, World.log, World.set, newEvents, sentQuery,
    sentArgs, Event.isTxStmt, Event.isPoolStmt]

/-- Witness of C2: `Execute` on a context that carries transaction 7. -/
theorem operations_join_transaction_witness :
    boundCtx.Value (GoValue.ptxKey "ptx") = GoValue.ptx (some 7)
      ∧ (simDriver.Named "INSERT" []).2.2 = none
      ∧ ((mainSQLX.mk simDB).Execute simDriver simWorld boundCtx "INSERT" []).1
          = Outcome.ret (some { lastInsertId := 0, rowsAffected := 1 }, none) :=
  ⟨by decide, by decide,
    ((operations_join_transaction simDriver (mainSQLX.mk simDB) simWorld boundCtx 7
      "INSERT" [] [] (by decide) (by decide)).1 _ (by simp)).1⟩

/-- C3. On a context that carries no transaction, with a query the rewriter
accepts, `Execute` and `QueryRow` return what the executor's own pool answers
(`QueryRow`: what the scan answers) to the rewritten, rebound query with the
rewriter's arguments; the calls made are the two rewriter calls and that one
statement on the pool (then the scan), none on a transaction. -/
theorem operations_use_pool {σ : Type} (d : Driver σ) (m : mainSQLX) (w : World σ)
    (ctx : Context) (query : String) (params : Params) (scans : List GoValue)
    (hT : ctx.Value (GoValue.ptxKey "ptx") = GoValue.nil)
    (hn : (d.Named query params).2.2 = none) :
    ((m.Execute d w ctx query params).1 = Outcome.ret
            (d.dbExecContext w.drv m.db ctx (sentQuery d m query params)
              (sentArgs d query params)).1
        ∧ (m.Execute d w ctx query params).2.drv
            = (d.dbExecContext w.drv m.db ctx (sentQuery d m query params)
                (sentArgs d query params)).2
        ∧ newEvents w (m.Execute d w ctx query params).2
            = [Event.named query params, Event.rebind m.db (d.Named query params).1,
               Event.dbExec m.db ctx (sentQuery d m query params) (sentArgs d query params)]
        ∧ (newEvents w (m.Execute d w ctx query params).2).filter Event.isPoolStmt
            = [Event.dbExec m.db ctx (sentQuery d m query params) (sentArgs d query params)]
        ∧ (newEvents w (m.Execute d w ctx query params).2).filter Event.isTxStmt = [])
      ∧ ((m.QueryRow d w ctx query params scans).1 = Outcome.ret
            (d.Scan
              (d.dbQueryRowContext w.drv m.db ctx (sentQuery d m query params)
                (sentArgs d query params)).2
              (d.dbQueryRowContext w.drv m.db ctx (sentQuery d m query params)
                (sentArgs d query params)).1 scans).1
        ∧ (m.QueryRow d w ctx query params scans).2.drv
            = (d.Scan
              (d.dbQueryRowContext w.drv m.db ctx (sentQuery d m query params)
                (sentArgs d query params)).2
              (d.dbQueryRowContext w.drv m.db ctx (sentQuery d m query params)
                (sentArgs d query params)).1 scans).2
        ∧ newEvents w (m.QueryRow d w ctx query params scans).2
            = [Event.named query params, Event.rebind m.db (d.Named query params).1,
               Event.dbQueryRow m.db ctx (sentQuery d m query params) (sentArgs d query params),
               Event.scan
                 (d.dbQueryRowContext w.drv m.db ctx (sentQuery d m query params)
                   (sentArgs d query params)).1 scans]
        ∧ (newEvents w (m.QueryRow d w ctx query params scans).2).filter Event.isPoolStmt
            = [Event.dbQueryRow m.db ctx (sentQuery d m query params) (sentArgs d query params)]
        ∧ (newEvents w (m.QueryRow d w ctx query params scans).2).filter Event.isTxStmt = []) := by
  simp [mainSQLX.Execute, mainSQLX.QueryRow, hT, hn, World.log, World.set, newEvents,
    sentQuery, sentArgs, Event.isTxStmt, Event.isPoolStmt]

/-- Witness of C3: `Execute` on the background context. -/
theorem operations_use_pool_witness :
    Context.background.Value (GoValue.ptxKey "ptx") = GoValue.nil
      ∧ (simDriver.Named "INSERT" []).2.2 = none
      ∧ newEvents simWorld
          ((mainSQLX.mk simDB).Execute simDriver simWorld Context.background "INSERT" []).2
          = [Event.named "INSERT" [], Event.rebind simDB "INSERT",
             Event.dbExec simDB Context.background "INSERT" []] :=
  ⟨by decide, by decide,
    (operations_use_pool simDriver (mainSQLX.mk simDB) simWorld Context.background
      "INSERT" [] [] (by decide) (by decide)).1.2.2.1⟩

/-- C6. When the rewriter reports an error, each of the four operations, on
every context, returns a non-nil error and sends no statement to the pool or to
a transaction; `Execute` and `QueryRow` return the rewriter's error itself on
every context, and so do the `*MustTx` forms when the lookup under the
transaction key is not nil (in particular when a transaction is bound). -/
theorem rewriter_error_sends_nothing {σ : Type} (d : Driver σ) (m : mainSQLX) (w : World σ)
    (ctx : Context) (query : String) (params : Params) (scans : List GoValue) (e : GoError)
    (hn : (d.Named query params).2.2 = some e) :
    ((m.Execute d w ctx query params).1 = Outcome.ret (none, some e)
        ∧ newEvents w (m.Execute d w ctx query params).2 = [Event.named query params]
        ∧ (m.Execute d w ctx query params).2.drv = w.drv)
      ∧ ((m.QueryRow d w ctx query params scans).1 = Outcome.ret (some e)
        ∧ newEvents w (m.QueryRow d w ctx query params scans).2 = [Event.named query params]
        ∧ (m.QueryRow d w ctx query params scans).2.drv = w.drv)
      ∧ ((∃ e2, (m.ExecuteMustTx d w ctx query params).1 = Outcome.ret (none, some e2))
        ∧ (newEvents w (m.ExecuteMustTx d w ctx query params).2).filter Event.isPoolStmt = []
        ∧ (newEvents w (m.ExecuteMustTx d w ctx query params).2).filter Event.isTxStmt = []
        ∧ (m.ExecuteMustTx d w ctx query params).2.drv = w.drv
        ∧ (ctx.Value (GoValue.ptxKey "ptx") ≠ GoValue.nil →
            (m.ExecuteMustTx d w ctx query params).1 = Outcome.ret (none, some e)))
      ∧ ((∃ e2, (m.QueryRowMustTx d w ctx query params scans).1 = Outcome.ret (some e2))
        ∧ (newEvents w (m.QueryRowMustTx d w ctx query params scans).2).filter
            Event.isPoolStmt = []
        ∧ (newEvents w (m.QueryRowMustTx d w ctx query params scans).2).filter
            Event.isTxStmt = []
        ∧ (m.QueryRowMustTx d w ctx query params scans).2.drv = w.drv
        ∧ (ctx.Value (GoValue.ptxKey "ptx") ≠ GoValue.nil →
            (m.QueryRowMustTx d w ctx query params scans).1 = Outcome.ret (some e))) := by
  by_cases hv : ctx.Value (GoValue.ptxKey "ptx") = GoValue.nil
  · simp [mainSQLX.ExecuteMustTx, mainSQLX.Execute, mainSQLX.QueryRowMustTx,
      mainSQLX.QueryRow, hv, hn, World.log, World.set, newEvents, Event.isTxStmt,
      Event.isPoolStmt]
  · simp [mainSQLX.ExecuteMustTx, mainSQLX.Execute, mainSQLX.QueryRowMustTx,
      mainSQLX.QueryRow, hv, hn, World.log, World.set, newEvents, Event.isTxStmt,
      Event.isPoolStmt]

/-- Witness of C6: the empty query, which the concrete rewriter rejects, on a
context that carries transaction 7. -/
theorem rewriter_error_sends_nothing_witness :
    (simDriver.Named "" []).2.2 = some { msg := "empty query" }
      ∧ ((mainSQLX.mk simDB).ExecuteMustTx simDriver simWorld boundCtx "" []).1
          = Outcome.ret (none, some { msg := "empty query" }) :=
  ⟨by decide,
    (rewriter_error_sends_nothing simDriver (mainSQLX.mk simDB) simWorld boundCtx "" [] []
      { msg := "empty query" } (by decide)).2.2.1.2.2.2.2 (by decide)⟩

/-- C4. When the primary pool starts the transaction `T`, `Begin` returns a nil
error and a handle on `T`; the reference then holds a new context, the old one
wrapped with one binding, on which the lookup under the transaction key yields
exactly `T` and every other lookup is as before; the only call made is the one
`Beginx` on the primary pool.  `Commit` and `Rollback` of the returned handle
call the driver's commit and rollback of `T`, and `ExecuteMustTx` and
`QueryRowMustTx` on the new context send their statement to `T`. -/
theorem begin_binds_transaction {σ : Type} (d : Driver σ) (h : databaseHolder) (w : World σ)
    (ctx : Context) (T : TxId) (s1 : σ)
    (hb : d.Beginx w.drv h.Mainx = (Except.ok T, s1)) :
    (h.Begin d w ctx).1 = Outcome.ret (some { tx := T }, none)
      ∧ (h.Begin d w ctx).2.1
          = Context.valueCtx ctx (GoValue.ptxKey "ptx") (GoValue.ptx (some T))
      ∧ (h.Begin d w ctx).2.1.Value (GoValue.ptxKey "ptx") = GoValue.ptx (some T)
      ∧ (∀ k, k ≠ GoValue.ptxKey "ptx" → (h.Begin d w ctx).2.1.Value k = ctx.Value k)
      ∧ (h.Begin d w ctx).2.2.drv = s1
      ∧ newEvents w (h.Begin d w ctx).2.2 = [Event.beginx h.Mainx]
      ∧ (∀ uh e, (h.Begin d w ctx).1 = Outcome.ret (some uh, e) →
          ∀ w2 : World σ,
            (uh.Commit d w2).1 = (d.Commit w2.drv T).1
            ∧ newEvents w2 (uh.Commit d w2).2 = [Event.commit T]
            ∧ (uh.Commit d w2).2.drv = (d.Commit w2.drv T).2
            ∧ (uh.Rollback d w2).1 = (d.Rollback w2.drv T).1
            ∧ newEvents w2 (uh.Rollback d w2).2 = [Event.rollback T]
            ∧ (uh.Rollback d w2).2.drv = (d.Rollback w2.drv T).2)
      ∧ (∀ (m : mainSQLX) (w2 : World σ) (query : String) (params : Params)
          (scans : List GoValue), (d.Named query params).2.2 = none →
          (m.ExecuteMustTx d w2 (h.Begin d w ctx).2.1 query params).1
              = Outcome.ret (d.txExecContext w2.drv T (h.Begin d w ctx).2.1
                  (sentQuery d m query params) (sentArgs d query params)).1
            ∧ (newEvents w2 (m.ExecuteMustTx d w2 (h.Begin d w ctx).2.1 query params).2).filter
                (fun ev => ev.isTxStmt || ev.isPoolStmt)
              = [Event.txExec T (h.Begin d w ctx).2.1 (sentQuery d m query params)
                  (sentArgs d query params)]
            ∧ (newEvents w2
                (m.QueryRowMustTx d w2 (h.Begin d w ctx).2.1 query params scans).2).filter
                (fun ev => ev.isTxStmt || ev.isPoolStmt)
              = [Event.txQueryRow T (h.Begin d w ctx).2.1 (sentQuery d m query params)
                  (sentArgs d query params)]) := by
  have hB : h.Begin d w ctx
      = (Outcome.ret (some { tx := T }, none),
         Context.valueCtx ctx (GoValue.ptxKey "ptx") (GoValue.ptx (some T)),
         { drv := s1, trace := w.trace ++ [Event.beginx h.Mainx] }) := by
    simp [databaseHolder.Begin, hb, WithValue, World.log, World.set]
  rw [hB]
  refine ⟨rfl, rfl, ?_, ?_, rfl, ?_, ?_, ?_⟩
  · simp [Context.Value]
  · intro k hk
    simp [Context.Value, Ne.symm hk]
  · simp [newEvents]
  · intro uh e hu w2
    simp only [Outcome.ret.injEq, Prod.mk.injEq, Option.some.injEq] at hu
    obtain ⟨hu, -⟩ := hu
    subst hu
    simp [uniqueHolder.Commit, uniqueHolder.Rollback, World.log, World.set, newEvents]
  · intro m w2 query params scans hn
    simp [mainSQLX.ExecuteMustTx, mainSQLX.QueryRowMustTx, Context.Value, hn, execOnTx,
      queryRowOnTx, assertPtx, World.log, World.set, newEvents, sentQuery, sentArgs,
      Event.isTxStmt, Event.isPoolStmt]

/-- Witness of C4: the concrete driver starts transaction 0. -/
theorem begin_binds_transaction_witness :
    simDriver.Beginx simWorld.drv simDB = (Except.ok 0, { next := 1, done := [] })
      ∧ ((databaseHolder.mk simDB none).Begin simDriver simWorld Context.background).2.1.Value
          (GoValue.ptxKey "ptx") = GoValue.ptx (some 0) :=
  ⟨rfl,
    (begin_binds_transaction simDriver (databaseHolder.mk simDB none) simWorld
      Context.background 0 { next := 1, done := [] } rfl).2.2.1⟩

/-- C5. When the primary pool fails to start a transaction with the error `e`,
`Begin` returns a nil handle together with exactly `e`, and the reference
still holds the context it held before the call. -/
theorem begin_failure_keeps_context {σ : Type} (d : Driver σ) (h : databaseHolder)
    (w : World σ) (ctx : Context) (e : GoError) (s1 : σ)
    (hb : d.Beginx w.drv h.Mainx = (Except.error e, s1)) :
    (h.Begin d w ctx).1 = Outcome.ret (none, some e)
      ∧ (h.Begin d w ctx).2.1 = ctx
      ∧ (h.Begin d w ctx).2.1.Value (GoValue.ptxKey "ptx")
          = ctx.Value (GoValue.ptxKey "ptx")
      ∧ (h.Begin d w ctx).2.2.drv = s1
      ∧ newEvents w (h.Begin d w ctx).2.2 = [Event.beginx h.Mainx] := by
  simp [databaseHolder.Begin, hb, World.log, World.set, newEvents]

/-- Witness of C5: a driver whose pool refuses to start a transaction. -/
theorem begin_failure_keeps_context_witness :
    downDriver.Beginx simWorld.drv simDB
        = (Except.error { msg := "connection refused" }, simWorld.drv)
      ∧ ((databaseHolder.mk simDB none).Begin downDriver simWorld Context.background).1
          = Outcome.ret (none, some { msg := "connection refused" })
      ∧ ((databaseHolder.mk simDB none).Begin downDriver simWorld Context.background).2.1
          = Context.background :=
  ⟨rfl,
    (begin_failure_keeps_context downDriver (databaseHolder.mk simDB none) simWorld
      Context.background { msg := "connection refused" } simWorld.drv rfl).1,
    (begin_failure_keeps_context downDriver (databaseHolder.mk simDB none) simWorld
      Context.background { msg := "connection refused" } simWorld.drv rfl).2.1⟩

/-- C7. For a handle returned by a successful `Begin`, on the transaction the
context then carries: `Commit` makes exactly one call, the driver's commit of
that transaction, and returns its error unchanged, and `Rollback` likewise with
the driver's rollback; `Commit` after `Rollback` (and `Rollback` after
`Commit`) returns what the driver answers on the state the first call left.
Hence with a driver that marks a transaction terminated at its first commit or
rollback and answers the error `eDone` on a terminated one, the second call
returns `eDone`, not nil. -/
theorem handle_delegates_to_transaction {σ : Type} (d : Driver σ) (h : databaseHolder)
    (w : World σ) (ctx : Context) (uh : uniqueHolder) (ctx1 : Context) (w1 : World σ)
    (hb : h.Begin d w ctx = (Outcome.ret (some uh, none), ctx1, w1)) :
    ctx1.Value (GoValue.ptxKey "ptx") = GoValue.ptx (some uh.tx)
      ∧ (∀ w2 : World σ,
          (uh.Commit d w2).1 = (d.Commit w2.drv uh.tx).1
          ∧ newEvents w2 (uh.Commit d w2).2 = [Event.commit uh.tx]
          ∧ (uh.Commit d w2).2.drv = (d.Commit w2.drv uh.tx).2
          ∧ (uh.Rollback d w2).1 = (d.Rollback w2.drv uh.tx).1
          ∧ newEvents w2 (uh.Rollback d w2).2 = [Event.rollback uh.tx]
          ∧ (uh.Rollback d w2).2.drv = (d.Rollback w2.drv uh.tx).2
          ∧ (uh.Commit d (uh.Rollback d w2).2).1
              = (d.Commit (d.Rollback w2.drv uh.tx).2 uh.tx).1
          ∧ (uh.Rollback d (uh.Commit d w2).2).1
              = (d.Rollback (d.Commit w2.drv uh.tx).2 uh.tx).1)
      ∧ (∀ (done : σ → TxId → Prop) (eDone : GoError),
          (∀ s T, done (d.Commit s T).2 T) →
          (∀ s T, done (d.Rollback s T).2 T) →
          (∀ s T, done s T → (d.Commit s T).1 = some eDone) →
          (∀ s T, done s T → (d.Rollback s T).1 = some eDone) →
          ∀ w2 : World σ,
            (uh.Commit d (uh.Rollback d w2).2).1 = some eDone
            ∧ (uh.Rollback d (uh.Commit d w2).2).1 = some eDone
            ∧ (uh.Commit d (uh.Rollback d w2).2).1 ≠ none
            ∧ (uh.Rollback d (uh.Commit d w2).2).1 ≠ none) := by
  refine ⟨?_, ?_, ?_⟩
  · unfold databaseHolder.Begin at hb
    cases hx : (d.Beginx w.drv h.Mainx).1 with
    | error err => simp [hx] at hb
    | ok tx =>
      simp only [hx, WithValue, reduceCtorEq, if_false, Prod.mk.injEq, Outcome.ret.injEq,
        Option.some.injEq, and_true, true_and] at hb
      obtain ⟨hu, hc, -⟩ := hb
      subst hu hc
      simp [Context.Value]
  · intro w2
    simp [uniqueHolder.Commit, uniqueHolder.Rollback, World.log, World.set, newEvents]
  · intro done eDone hc hr hcd hrd w2
    have h1 : (uh.Commit d (uh.Rollback d w2).2).1 = some eDone := by
      simpa [uniqueHolder.Commit, uniqueHolder.Rollback, World.log, World.set]
        using hcd _ _ (hr w2.drv uh.tx)
    have h2 : (uh.Rollback d (uh.Commit d w2).2).1 = some eDone := by
      simpa [uniqueHolder.Commit, uniqueHolder.Rollback, World.log, World.set]
        using hrd _ _ (hc w2.drv uh.tx)
    exact ⟨h1, h2, by simp [h1], by simp [h2]⟩

/-- Witness of C7: the handle of transaction 0 of the concrete driver, whose
transactions answer `errTxDone` once terminated. -/
theorem handle_delegates_to_transaction_witness :
    (databaseHolder.mk simDB none).Begin simDriver simWorld Context.background
        = (Outcome.ret (some { tx := 0 }, none),
           Context.valueCtx Context.background (GoValue.ptxKey "ptx") (GoValue.ptx (some 0)),
           { drv := { next := 1, done := [] }, trace := [Event.beginx simDB] })
      ∧ ((uniqueHolder.mk 0).Commit simDriver
          ((uniqueHolder.mk 0).Rollback simDriver
            { drv := { next := 1, done := [] }, trace := [Event.beginx simDB] }).2).1
          = some errTxDone :=
  ⟨rfl,
    ((handle_delegates_to_transaction simDriver (databaseHolder.mk simDB none) simWorld
      Context.background { tx := 0 } _ _ rfl).2.2 (fun s T => T ∈ s.done) errTxDone
      (by intro s T; by_cases hm : T ∈ s.done <;> simp [simDriver, hm])
      (by intro s T; by_cases hm : T ∈ s.done <;> simp [simDriver, hm])
      (by intro s T hm; simp [simDriver, hm])
      (by intro s T hm; simp [simDriver, hm])
      { drv := { next := 1, done := [] }, trace := [Event.beginx simDB] }).1⟩

/-- C9. Starting from a context `c0` without a transaction, a first successful
`Begin` (transaction `T1`) and a second successful `Begin` through the same
reference (transaction `T2`): the reference ends on a context whose lookup
yields `T2` (so not `T1` when the two differ); the context captured between
the two calls still yields `T1`, and `c0` still yields no transaction.  A
context derived from one that carries a transaction, by binding another key or
by a derivation that binds nothing, yields the same transaction as its parent. -/
theorem second_begin_rebinds_branch {σ : Type} (d : Driver σ) (h1 h2 : databaseHolder)
    (w1 w2 : World σ) (c0 : Context) (T1 T2 : TxId) (s1 s2 : σ)
    (h0 : c0.Value (GoValue.ptxKey "ptx") = GoValue.nil)
    (hb1 : d.Beginx w1.drv h1.Mainx = (Except.ok T1, s1))
    (hb2 : d.Beginx w2.drv h2.Mainx = (Except.ok T2, s2)) :
    (h2.Begin d w2 (h1.Begin d w1 c0).2.1).1 = Outcome.ret (some { tx := T2 }, none)
      ∧ (h2.Begin d w2 (h1.Begin d w1 c0).2.1).2.1.Value (GoValue.ptxKey "ptx")
          = GoValue.ptx (some T2)
      ∧ (T2 ≠ T1 → (h2.Begin d w2 (h1.Begin d w1 c0).2.1).2.1.Value (GoValue.ptxKey "ptx")
          ≠ GoValue.ptx (some T1))
      ∧ (h1.Begin d w1 c0).2.1.Value (GoValue.ptxKey "ptx") = GoValue.ptx (some T1)
      ∧ c0.Value (GoValue.ptxKey "ptx") = GoValue.nil
      ∧ (∀ (parent child : Context) (T : TxId) (k v : GoValue),
          parent.Value (GoValue.ptxKey "ptx") = GoValue.ptx (some T) →
          k ≠ GoValue.ptxKey "ptx" → WithValue parent k v = Outcome.ret child →
          child.Value (GoValue.ptxKey "ptx") = GoValue.ptx (some T))
      ∧ (∀ (parent : Context) (T : TxId),
          parent.Value (GoValue.ptxKey "ptx") = GoValue.ptx (some T) →
          (Context.cancelCtx parent).Value (GoValue.ptxKey "ptx") = GoValue.ptx (some T)) := by
  have e1 : (h1.Begin d w1 c0).2.1
      = Context.valueCtx c0 (GoValue.ptxKey "ptx") (GoValue.ptx (some T1)) := by
    simp [databaseHolder.Begin, hb1, WithValue]
  have e2 : ∀ c, h2.Begin d w2 c
      = (Outcome.ret (some { tx := T2 }, none),
         Context.valueCtx c (GoValue.ptxKey "ptx") (GoValue.ptx (some T2)),
         { drv := s2, trace := w2.trace ++ [Event.beginx h2.Mainx] }) := by
    intro c
    simp [databaseHolder.Begin, hb2, WithValue, World.log, World.set]
  rw [e1, e2]
  refine ⟨rfl, by simp [Context.Value], ?_, by simp [Context.Value], h0, ?_, ?_⟩
  · intro hne
    simp [Context.Value, hne]
  · intro parent child T k v hp hk hw
    unfold WithValue at hw
    split at hw
    · simp at hw
    · simp only [Outcome.ret.injEq] at hw
      subst hw
      simp [Context.Value, hk, hp]
  · intro parent T hp
    simp [Context.Value, hp]

/-- Witness of C9: two transactions started one after the other through one
reference by the concrete driver. -/
theorem second_begin_rebinds_branch_witness :
    Context.background.Value (GoValue.ptxKey "ptx") = GoValue.nil
      ∧ simDriver.Beginx simWorld.drv simDB = (Except.ok 0, { next := 1, done := [] })
      ∧ simDriver.Beginx { next := 1, done := [] } simDB
          = (Except.ok 1, { next := 2, done := [] })
      ∧ ((databaseHolder.mk simDB none).Begin simDriver
            { drv := { next := 1, done := [] }, trace := [] }
            ((databaseHolder.mk simDB none).Begin simDriver simWorld
              Context.background).2.1).2.1.Value (GoValue.ptxKey "ptx")
          = GoValue.ptx (some 1) :=
  ⟨rfl, rfl, rfl,
    (second_begin_rebinds_branch simDriver (databaseHolder.mk simDB none)
      (databaseHolder.mk simDB none) simWorld
      { drv := { next := 1, done := [] }, trace := [] } Context.background 0 1
      { next := 1, done := [] } { next := 2, done := [] } rfl rfl rfl).2.1⟩

/-- C10. Take a context without a value under the transaction key and derive
from it by any finite sequence of successful `Begin` calls, bindings of other
keys and derivations that bind nothing.  On the result the lookup under the
transaction key is nil or a non-nil pointer of type `ptx`, so the type
assertion succeeds whenever the lookup is not nil, and none of the four
operations panics, whatever the query, the parameters and the world. -/
theorem lookup_is_absent_or_transaction {σ : Type} (d : Driver σ) (base ctx : Context)
    (steps : List (Step σ))
    (hbase : base.Value (GoValue.ptxKey "ptx") = GoValue.nil)
    (hsteps : applySteps d base steps = some ctx) :
    (ctx.Value (GoValue.ptxKey "ptx") = GoValue.nil
        ∨ ∃ T, ctx.Value (GoValue.ptxKey "ptx") = GoValue.ptx (some T))
      ∧ (ctx.Value (GoValue.ptxKey "ptx") ≠ GoValue.nil →
          ∃ T, assertPtx (ctx.Value (GoValue.ptxKey "ptx")) = some (some T))
      ∧ (∀ (m : mainSQLX) (w : World σ) (query : String) (params : Params)
          (scans : List GoValue),
          (m.ExecuteMustTx d w ctx query params).1.isPanic = false
          ∧ (m.Execute d w ctx query params).1.isPanic = false
          ∧ (m.QueryRowMustTx d w ctx query params scans).1.isPanic = false
          ∧ (m.QueryRow d w ctx query params scans).1.isPanic = false) := by
  have hinv := applySteps_lookup d steps base ctx (Or.inl hbase) hsteps
  refine ⟨hinv, ?_, ?_⟩
  · intro hne
    rcases hinv with hnil | ⟨T, hT⟩
    · exact absurd hnil hne
    · exact ⟨T, by simp [hT, assertPtx]⟩
  · intro m w query params scans
    rcases hinv with hnil | ⟨T, hT⟩
    · cases hn : (d.Named query params).2.2 <;>
        simp [mainSQLX.ExecuteMustTx, mainSQLX.Execute, mainSQLX.QueryRowMustTx,
          mainSQLX.QueryRow, hnil, hn, Outcome.isPanic]
    · cases hn : (d.Named query params).2.2 <;>
        simp [mainSQLX.ExecuteMustTx, mainSQLX.Execute, mainSQLX.QueryRowMustTx,
          mainSQLX.QueryRow, hT, hn, Outcome.isPanic, execOnTx, queryRowOnTx, assertPtx]

/-- Witness of C10: a binding of another key, a `Begin`, a derivation and a
second `Begin`, from the background context. -/
theorem lookup_is_absent_or_transaction_witness :
    Context.background.Value (GoValue.ptxKey "ptx") = GoValue.nil
      ∧ applySteps simDriver Context.background
          [Step.bind (GoValue.str "user") (GoValue.int 3),
           Step.beginTx (databaseHolder.mk simDB none) simWorld,
           Step.derive,
           Step.beginTx (databaseHolder.mk simDB none)
             { drv := { next := 5, done := [] }, trace := [] }]
          = some (Context.valueCtx (Context.cancelCtx (Context.valueCtx
              (Context.valueCtx Context.background (GoValue.str "user") (GoValue.int 3))
              (GoValue.ptxKey "ptx") (GoValue.ptx (some 0))))
              (GoValue.ptxKey "ptx") (GoValue.ptx (some 5)))
      ∧ ((mainSQLX.mk simDB).ExecuteMustTx simDriver simWorld
          (Context.valueCtx (Context.cancelCtx (Context.valueCtx
              (Context.valueCtx Context.background (GoValue.str "user") (GoValue.int 3))
              (GoValue.ptxKey "ptx") (GoValue.ptx (some 0))))
              (GoValue.ptxKey "ptx") (GoValue.ptx (some 5))) "INSERT" []).1.isPanic = false :=
  ⟨rfl, rfl,
    ((lookup_is_absent_or_transaction simDriver Context.background _
      [Step.bind (GoValue.str "user") (GoValue.int 3),
       Step.beginTx (databaseHolder.mk simDB none) simWorld,
       Step.derive,
       Step.beginTx (databaseHolder.mk simDB none)
         { drv := { next := 5, done := [] }, trace := [] }] rfl rfl).2.2
      (mainSQLX.mk simDB) simWorld "INSERT" [] []).1⟩

/-- C8, evaluated at `Initialize "dsn-main" "dsn-replica" "orders"` with the
concrete driver.  `Open` returns; the pool behind `Main()` and behind the
`Transaction` is the one opened from `"dsn-main"`, but the pool behind
`Replica()` is a second pool opened from `"dsn-main"` as well: both open calls
carry the main connection string and none carries `"dsn-replica"`. -/
theorem replica_pool_opened_from_main_string :
    ((Initialize "dsn-main" "dsn-replica" "orders").Open simDriver simWorld).1
        = Outcome.ret
            ({ Mainx := { id := 0, driverName := "postgres", dataSourceName := "dsn-main" },
               Replicax := some { id := 1, driverName := "postgres",
                                  dataSourceName := "dsn-main" } },
             { Mainx := { id := 0, driverName := "postgres", dataSourceName := "dsn-main" },
               Replicax := none })
      ∧ (newEvents simWorld
          ((Initialize "dsn-main" "dsn-replica" "orders").Open simDriver simWorld).2).filter
            Event.isOpen
          = [Event.sqlxOpen "postgres" "dsn-main", Event.sqlxOpen "postgres" "dsn-main"]
      ∧ Event.sqlxOpen "postgres" "dsn-replica"
          ∉ ((Initialize "dsn-main" "dsn-replica" "orders").Open simDriver simWorld).2.trace
      ∧ (newEvents simWorld
          ((Initialize "dsn-main" "dsn-replica" "orders").Open simDriver simWorld).2).filter
            (fun ev => ev == Event.ping { id := 1, driverName := "postgres",
                                          dataSourceName := "dsn-main" })
          = [Event.ping { id := 1, driverName := "postgres", dataSourceName := "dsn-main" }] := by
  decide

end Cptx
